import Mathlib

/-!
Verification development for the beastprint-sdk print dispatcher.

The definitions below are a shallow embedding of the current TypeScript
source of `src/index.ts`, as shipped inside `dist/index.cjs` (the bundle
file carries the full current source text after the compiled preamble;
that version contains the shared-field normalization, the Printdesk stage
of the auto chain, the memoized template renderer and the same-origin
handling that the specification describes; `src/src/index.ts` in the
snapshot is an earlier generation of the same module).

Terminology mapping between the specification and the source:
the spec's "browser" strategy/adapter is `legacy` in the source, "cloud"
is `beast`, and "agent" is `printdesk`.

External effects (fetch, window, document, timers) are modelled by an
`Env` record of oracles describing the outcomes of the external world,
together with an event trace recorded in the state: every network call,
window/iframe operation and console warning appends one event.  In
addition, each backend adapter records a `call` event when it is entered,
so that "backend X was invoked" is directly observable in the trace.
JavaScript truthiness of optional strings/numbers/booleans is modelled by
the `truthyStr`/`truthyNat`/`truthyBool` helpers.
-/

set_option maxRecDepth 100000

namespace BeastprintSdk

/-- Opaque model of a JSON `Record<string, any>` payload (`data`). -/
abbrev JsonData := List (String × String)

/-- DebugConfig from the source: `{ enabled?: boolean }`. -/
structure DebugConfig where
  enabled : Option Bool
deriving DecidableEq

/-- BeastPrintPrinter from the source: `{ key, profileKey? }`. -/
structure BeastPrintPrinter where
  key : String
  profileKey : Option String
deriving DecidableEq

/-- BeastPrintOptions from the source.  The `mode` field is a plain string
at runtime (the code has an explicit unsupported-mode branch), so it is
modelled as `Option String`. -/
structure BeastPrintOptions where
  mode : Option String := none
  templateId : Option String := none
  widthMm : Option Nat := none
  data : Option JsonData := none
  printer : Option BeastPrintPrinter := none
  html : Option String := none
  url : Option String := none
deriving DecidableEq

/-- LegacyPrintOptions from the source. -/
structure LegacyPrintOptions where
  html : Option String := none
  url : Option String := none
  pageWidthMm : Option Nat := none
  pageHeightMm : Option Nat := none
  marginMm : Option Nat := none
  hideAppChrome : Option Bool := none
  popup : Option Bool := none
  popupWidthPx : Option Nat := none
  popupHeightPx : Option Nat := none
  urlInIframe : Option Bool := none
deriving DecidableEq

/-- PrintdeskOptions from the source (dist version): `{ html?, url?, localUrl? }`. -/
structure PrintdeskOptions where
  html : Option String := none
  url : Option String := none
  localUrl : Option String := none
deriving DecidableEq

/-- PrintStrategy from the source. -/
inductive PrintStrategy where
  | auto
  | legacy
  | beast
  | printdesk
deriving DecidableEq

/-- PrintOptions from the source: per-backend options plus the shared
`html`/`url` fields, the per-call `debug` override and
`fallbackToLegacyOnError`. -/
structure PrintOptions where
  strategy : Option PrintStrategy := none
  legacy : Option LegacyPrintOptions := none
  beast : Option BeastPrintOptions := none
  printdesk : Option PrintdeskOptions := none
  html : Option String := none
  url : Option String := none
  debug : Option Bool := none
  fallbackToLegacyOnError : Option Bool := none
deriving DecidableEq

/-- JavaScript truthiness of an optional string: defined and non-empty. -/
def truthyStr : Option String → Bool
  | some s => s ≠ ""
  | none => false

/-- JavaScript truthiness of an optional number: defined and non-zero. -/
def truthyNat : Option Nat → Bool
  | some n => n ≠ 0
  | none => false

/-- JavaScript truthiness of an optional boolean: defined and true. -/
def truthyBool : Option Bool → Bool
  | some b => b
  | none => false

/-- Body of a POST to the BeastPrint print endpoint.  Optional fields model
JSON keys that are present only in one of the two modes. -/
structure CloudBody where
  mode : String
  widthMm : Nat
  templateId : Option String := none
  data : Option JsonData := none
  content : Option String := none
  printer : BeastPrintPrinter
deriving DecidableEq

/-- Errors thrown by the source, one constructor per distinct `throw` site.
`Err.message` below recovers the exact JavaScript message text. -/
inductive Err where
  | noBeastOptions
  | printerKeyRequired
  | templateIdRequired
  | htmlRequired
  | unsupportedMode (mode : String)
  | beastHttp (status : Nat) (text : String)
  | fetchUrlFailed (status : Nat) (text : String)
  | renderFailed (status : Nat) (text : String)
  | noPrintdeskOptions
  | printdeskFetchFailed (status : Nat) (text : String)
  | printdeskHtmlRequired
  | printdeskLocalFailed (status : Nat) (text : String)
  | windowPrintUnavailable
  | cannotOpenWindowEnv
  | cannotCreateIframeEnv
  | popupBlocked
  | iframeContentWindowFailed
  | noUsableConfiguration
deriving DecidableEq

/-- Optional status/text tail of an HTTP error message:
`${status}${text ? ' - ' + text : ''}`. -/
def statusTail (status : Nat) (text : String) : String :=
  toString status ++ (if text = "" then "" else " - " ++ text)

/-- Exact message text of each thrown Error in the source. -/
def Err.message : Err → String
  | .noBeastOptions => "[beastprint] No BeastPrint options provided"
  | .printerKeyRequired => "[beastprint] printer.key is required for BeastPrint"
  | .templateIdRequired =>
      "[beastprint] templateId is required when mode=\"template\" and no shared templateId is provided"
  | .htmlRequired =>
      "[beastprint] html or url is required when mode=\"html\" and no templateId is set"
  | .unsupportedMode m => "[beastprint] Unsupported mode: " ++ m
  | .beastHttp st tx => "BeastPrint error: " ++ statusTail st tx
  | .fetchUrlFailed st tx => "[beastprint] Failed to fetch HTML from url: " ++ statusTail st tx
  | .renderFailed st tx => "[beastprint] renderTemplateToHtml error: " ++ statusTail st tx
  | .noPrintdeskOptions => "[beastprint] No Printdesk options provided"
  | .printdeskFetchFailed st tx =>
      "[beastprint] Printdesk: failed to fetch HTML from url: " ++ statusTail st tx
  | .printdeskHtmlRequired =>
      "[beastprint] Printdesk: html or url (or shared html/url) is required"
  | .printdeskLocalFailed st tx => "[beastprint] Local Printdesk error: " ++ statusTail st tx
  | .windowPrintUnavailable => "[beastprint] window.print() is not available"
  | .cannotOpenWindowEnv => "[beastprint] Cannot open window/iframe in non-browser environment"
  | .cannotCreateIframeEnv => "[beastprint] Cannot create iframe in non-browser environment"
  | .popupBlocked => "[beastprint] Popup blocked or failed to open window"
  | .iframeContentWindowFailed => "[beastprint] Failed to access iframe.contentWindow"
  | .noUsableConfiguration =>
      "[beastprint] auto strategy: no usable configuration for beast, printdesk, or legacy"

/-- Classification of errors per the spec taxonomy: configuration errors are
the missing/invalid-required-option failures raised before any I/O. -/
def Err.isConfigurationError : Err → Bool
  | .noBeastOptions => true
  | .printerKeyRequired => true
  | .templateIdRequired => true
  | .htmlRequired => true
  | .unsupportedMode _ => true
  | .noPrintdeskOptions => true
  | .printdeskHtmlRequired => true
  | .noUsableConfiguration => true
  | _ => false

/-- Kinds of console.warn messages emitted by the source. -/
inductive WarnK where
  | cloudAutoFailed
  | printdeskAutoFailed
  | strategyFallback
  | crossOrigin (url : String)
deriving DecidableEq

/-- Observable events of one dispatch run: every network call, every
window/iframe operation, every warning, plus a `call` marker recorded on
entry to each backend adapter (so invocation itself is observable). -/
inductive Ev where
  | call (fn : String)
  | netPrint (body : CloudBody)
  | netRender (templateId : String) (widthMm : Nat) (data : JsonData)
  | netFetchUrl (url : String)
  | netLocal (localUrl : String) (html : String)
  | warn (k : WarnK)
  | windowOpen (url : String) (features : Option String)
  | iframeUrl (url : String)
  | iframeHtml (doc : String)
  | popupOpen (features : Option String)
  | popupWrite (doc : String)
  | nativePrint
deriving DecidableEq

/-- Network events: requests issued over HTTP by the SDK. -/
def isNetworkEv : Ev → Bool
  | .netPrint _ => true
  | .netRender _ _ _ => true
  | .netFetchUrl _ => true
  | .netLocal _ _ => true
  | _ => false

/-- Template-render network calls. -/
def isNetRender : Ev → Bool
  | .netRender _ _ _ => true
  | _ => false

/-- Invocation marker of the legacy (browser) adapter. -/
def isLegacyCall : Ev → Bool
  | .call fn => fn = "legacyPrint"
  | _ => false

/-- The console.warn recorded when the auto chain's Cloud (beast) stage fails. -/
def isCloudWarn : Ev → Bool
  | .warn .cloudAutoFailed => true
  | _ => false

/-- Oracles for the external world: outcomes of network calls and
capabilities/behavior of the browser environment. -/
structure Env where
  cloudPrintOk : Bool
  cloudPrintStatus : Nat := 500
  cloudPrintErrText : String := ""
  renderOk : Bool
  renderHtml : String := ""
  renderStatus : Nat := 500
  renderErrText : String := ""
  fetchUrlOk : Bool
  fetchUrlStatus : Nat := 500
  fetchUrlErrText : String := ""
  fetchUrlText : String → String
  localOk : Bool
  localStatus : Nat := 500
  localErrText : String := ""
  hasWindow : Bool
  hasDocument : Bool
  windowPrintFn : Bool
  windowOpenOk : Bool
  iframeContentWindowOk : Bool
  originOf : String → Option String
  locationOrigin : String

/-- Mutable state threaded through a run: the event trace, the module-level
debug config, and the per-call memo of the rendered template HTML (the
`renderedTemplateHtml` local of `print`). -/
structure St where
  trace : List Ev
  debugConfig : DebugConfig
  rendered : Option String

/-- Computation monad of the embedding: state passing with short-circuiting
errors (thrown JavaScript Errors). -/
def M (α : Type) : Type := St → Except Err α × St

/-- Monadic return. -/
def pureM {α : Type} (a : α) : M α := fun s => (Except.ok a, s)

/-- Monadic bind with error short-circuit; state changes made before a
throw persist (as they do for JavaScript mutations). -/
def bindM {α β : Type} (m : M α) (f : α → M β) : M β := fun s =>
  match m s with
  | (Except.ok a, s') => f a s'
  | (Except.error e, s') => (Except.error e, s')

instance : Monad M where
  pure := pureM
  bind := bindM

/-- Throw a JavaScript Error. -/
def throwM {α : Type} (e : Err) : M α := fun s => (Except.error e, s)

/-- Record one observable event. -/
def emitM (ev : Ev) : M Unit := fun s =>
  (Except.ok (), { s with trace := s.trace ++ [ev] })

/-- JavaScript try/catch: state changes of the failing body persist and the
handler continues from them. -/
def tryCatchM {α : Type} (m : M α) (h : Err → M α) : M α := fun s =>
  match m s with
  | (Except.ok a, s') => (Except.ok a, s')
  | (Except.error e, s') => h e s'

/-- Read the per-call memoized rendered-template HTML. -/
def getRendered : M (Option String) := fun s => (Except.ok s.rendered, s)

/-- Write the per-call memoized rendered-template HTML. -/
def setRendered (r : Option String) : M Unit := fun s =>
  (Except.ok (), { s with rendered := r })

@[simp] theorem bindIsBindM {α β : Type} (m : M α) (f : α → M β) :
    m >>= f = bindM m f := rfl

@[simp] theorem pureIsPureM {α : Type} (a : α) : (pure a : M α) = pureM a := rfl

/-! ### buildLegacyPrintHtml

Embedding of the pure string-template function `buildLegacyPrintHtml`
(dist/index.cjs, identical in src/src/index.ts lines 143-218).  The two
regular-expression tests `/<html[\s>]/i` and `/<head[\s>]/i` and the
first-match replacement `html.replace(/<head([\s>])/i, ...)` are
implemented by direct character scans. -/

/-- Characters matched by the regex class `\s` (ASCII portion). -/
def isRegexSpace (c : Char) : Bool :=
  c = ' ' || c = '\t' || c = '\n' || c = '\x0d' || c = '\x0b' || c = '\x0c'

/-- Does the character list start with the given tag name (case-insensitive)
followed by a whitespace character or a closing angle bracket, i.e. match
the regex `/<NAME[\s>]/i` at position 0?  `tag` is given lowercase. -/
def tagAt (tag : List Char) : List Char → Bool
  | [] => tag.isEmpty
  | c :: rest =>
    match tag with
    | [] => isRegexSpace c || c = '>'
    | t :: ts => c.toLower = t && tagAt ts rest

/-- Does the string contain a match of `/<NAME[\s>]/i` anywhere? -/
def containsTag (tag : List Char) : List Char → Bool
  | [] => false
  | c :: rest => tagAt tag (c :: rest) || containsTag tag rest

/-- The test `/<html[\s>]/i.test(html)`. -/
def hasHtmlTag (html : String) : Bool :=
  containsTag ['<', 'h', 't', 'm', 'l'] html.data

/-- The test `/<head[\s>]/i.test(html)`. -/
def hasHeadTag (html : String) : Bool :=
  containsTag ['<', 'h', 'e', 'a', 'd'] html.data

/-- The replacement `html.replace(/<head([\s>])/i, '<head$1' + style)`:
insert `style` directly after the first `<head` + separator occurrence,
preserving the original characters. -/
def insertAfterHeadTag (style : List Char) : List Char → List Char
  | [] => []
  | c :: rest =>
    if tagAt ['<', 'h', 'e', 'a', 'd'] (c :: rest) then
      match c :: rest with
      | c0 :: c1 :: c2 :: c3 :: c4 :: c5 :: rest' =>
          c0 :: c1 :: c2 :: c3 :: c4 :: c5 :: (style ++ rest')
      | l => l
    else c :: insertAfterHeadTag style rest

/-- The `@page` rule lines: `size` (only when `pageWidthMm` is truthy, with
an optional second dimension) followed by `margin`. -/
def pageRules (pageWidthMm pageHeightMm : Option Nat) (marginMm : Nat) : List String :=
  (if truthyNat pageWidthMm then
      ["size: " ++ toString (pageWidthMm.getD 0) ++ "mm" ++
        (if truthyNat pageHeightMm then " " ++ toString (pageHeightMm.getD 0) ++ "mm" else "") ++
        ";"]
    else []) ++
  ["margin: " ++ toString marginMm ++ "mm;"]

/-- The chrome-hiding CSS block (emitted when `hideAppChrome` is on). -/
def hideChromeCssOn : String :=
  "\n      header, footer, nav,\n      .site-header, .site-footer,\n      .app-header, .app-footer \x7b\n        display: none !important;\n      \x7d\n    "

/-- Style block injected into a full HTML document (the `styleBlock`
template literal of the source). -/
def styleBlockDoc (rules : List String) (hideChromeCss : String) : String :=
  "\n      <style>\n        @page \x7b\n          " ++
  String.intercalate "\n          " rules ++
  "\n        \x7d\n        body \x7b\n          margin: 0;\n          padding: 0;\n        \x7d\n        " ++
  hideChromeCss ++
  "\n      </style>\n    "

/-- Head part of the full-document wrapper used for HTML fragments, up to
the page rules. -/
def fragPart1 : String :=
  "\n<!doctype html>\n<html>\n  <head>\n    <meta charset=\"utf-8\" />\n    <title>Print</title>\n    <style>\n      @page \x7b\n        "

/-- Middle part of the fragment wrapper, between the page rules and the
chrome-hiding CSS. -/
def fragPart2 : String :=
  "\n      \x7d\n      body \x7b\n        margin: 0;\n        padding: 0;\n      \x7d\n      "

/-- Part of the fragment wrapper between the chrome CSS and the body content. -/
def fragPart3 : String :=
  "\n    </style>\n  </head>\n  <body>\n    "

/-- Tail of the fragment wrapper after the body content. -/
def fragPart4 : String :=
  "\n  </body>\n</html>\n"

/-- Embedding of `buildLegacyPrintHtml(html, options?)`. -/
def buildLegacyPrintHtml (html : String) (options : Option LegacyPrintOptions) : String :=
  let pageWidthMm := match options with | some o => o.pageWidthMm | none => none
  let pageHeightMm := match options with | some o => o.pageHeightMm | none => none
  let marginMm := (match options with | some o => o.marginMm | none => none).getD 0
  let hideAppChrome := (match options with | some o => o.hideAppChrome | none => none).getD true
  let rules := pageRules pageWidthMm pageHeightMm marginMm
  let hideChromeCss := if hideAppChrome then hideChromeCssOn else ""
  if hasHtmlTag html then
    let styleBlock := styleBlockDoc rules hideChromeCss
    if hasHeadTag html then
      String.mk (insertAfterHeadTag styleBlock.data html.data)
    else
      styleBlock ++ html
  else
    fragPart1 ++ String.intercalate "\n        " rules ++ fragPart2 ++ hideChromeCss ++
      fragPart3 ++ html ++ fragPart4

/-- Substring test used to state containment properties of generated
documents. -/
def leadsWith : List Char → List Char → Bool
  | [], _ => true
  | _ :: _, [] => false
  | a :: as, b :: bs => a = b && leadsWith as bs

/-- Does `hay` contain `needle` as a contiguous substring? -/
def containsSub (needle : List Char) : List Char → Bool
  | [] => needle.isEmpty
  | c :: rest => leadsWith needle (c :: rest) || containsSub needle rest

/-- String-level substring containment. -/
def strContains (hay needle : String) : Bool :=
  containsSub needle.data hay.data

/-! ### Backend adapters -/

/-- Embedding of `renderTemplateToHtml(templateId, widthMm, data)`: one POST
to the render endpoint with body `{mode:'template', templateId,
widthMm ?? 80, data ?? {}}`; returns the HTML text on 2xx, otherwise throws
an error embedding status and best-effort body text. -/
def renderTemplateToHtml (env : Env) (templateId : String)
    (widthMm : Option Nat) (data : Option JsonData) : M String := do
  emitM (Ev.netRender templateId (widthMm.getD 80) (data.getD []))
  if env.renderOk then
    pureM env.renderHtml
  else
    throwM (Err.renderFailed env.renderStatus env.renderErrText)

/-- Embedding of `beastPrint(options?)` (dist version): printer.key
precondition, then `templateId` truthy forces template mode irrespective of
`mode`; otherwise the declared mode (default `template`) is honored, with
html-mode content resolved as `options.html` then fetched `options.url`. -/
def beastPrint (env : Env) (options : Option BeastPrintOptions) : M Unit := do
  emitM (Ev.call "beastPrint")
  match options with
  | none => throwM Err.noBeastOptions
  | some o =>
    match o.printer with
    | none => throwM Err.printerKeyRequired
    | some p =>
      if p.key = "" then throwM Err.printerKeyRequired
      else if truthyStr o.templateId then do
        emitM (Ev.netPrint
          { mode := "template", widthMm := o.widthMm.getD 80,
            templateId := o.templateId, data := some (o.data.getD []),
            content := none, printer := p })
        if env.cloudPrintOk then pureM ()
        else throwM (Err.beastHttp env.cloudPrintStatus env.cloudPrintErrText)
      else
        let mode := o.mode.getD "template"
        if mode = "template" then throwM Err.templateIdRequired
        else if mode = "html" then do
          let html1 ← (if !truthyStr o.html && truthyStr o.url then do
              emitM (Ev.netFetchUrl (o.url.getD ""))
              if env.fetchUrlOk then
                pureM (some (env.fetchUrlText (o.url.getD "")))
              else
                throwM (Err.fetchUrlFailed env.fetchUrlStatus env.fetchUrlErrText)
            else pureM o.html)
          if !truthyStr html1 then throwM Err.htmlRequired
          else do
            emitM (Ev.netPrint
              { mode := "html", widthMm := o.widthMm.getD 80,
                templateId := none, data := none,
                content := some (html1.getD ""), printer := p })
            if env.cloudPrintOk then pureM ()
            else throwM (Err.beastHttp env.cloudPrintStatus env.cloudPrintErrText)
        else throwM (Err.unsupportedMode mode)

/-- Embedding of `printdeskPrint(options?)` (dist version): content is
`options.html`, else `options.url` fetched as text; the resulting HTML is
POSTed to the local agent endpoint as `{html}`. -/
def printdeskPrint (env : Env) (options : Option PrintdeskOptions) : M Unit := do
  emitM (Ev.call "printdeskPrint")
  match options with
  | none => throwM Err.noPrintdeskOptions
  | some o => do
    let localUrl := o.localUrl.getD "http://127.0.0.1:43594/print"
    let html1 ← (if !truthyStr o.html && truthyStr o.url then do
        emitM (Ev.netFetchUrl (o.url.getD ""))
        if env.fetchUrlOk then
          pureM (some (env.fetchUrlText (o.url.getD "")))
        else
          throwM (Err.printdeskFetchFailed env.fetchUrlStatus env.fetchUrlErrText)
      else pureM o.html)
    if !truthyStr html1 then throwM Err.printdeskHtmlRequired
    else do
      emitM (Ev.netLocal localUrl (html1.getD ""))
      if env.localOk then pureM ()
      else throwM (Err.printdeskLocalFailed env.localStatus env.localErrText)

/-- The popup features string: width/height parts (truthy pixel values)
joined by a comma; empty string becomes `undefined`. -/
def popupFeatures (o : LegacyPrintOptions) : Option String :=
  let parts :=
    (if truthyNat o.popupWidthPx then ["width=" ++ toString (o.popupWidthPx.getD 0)] else []) ++
    (if truthyNat o.popupHeightPx then ["height=" ++ toString (o.popupHeightPx.getD 0)] else [])
  let f := String.intercalate "," parts
  if f = "" then none else some f

/-- Same-origin test of the source: parse the URL against the current
location (`none` models a parse failure, caught and treated as
cross-origin) and compare origins. -/
def sameOrigin (env : Env) (url : String) : Bool :=
  match env.originOf url with
  | some o => o = env.locationOrigin
  | none => false

/-- The no-content branch of `legacyPrint`: call `window.print()` when
available, else throw. -/
def nativeOrThrow (env : Env) : M Unit :=
  if env.hasWindow && env.windowPrintFn then emitM Ev.nativePrint
  else throwM Err.windowPrintUnavailable

/-- Embedding of `legacyPrint(options?)` (dist version).  Three content
modes: no content (native print), URL content (popup, or same-origin
hidden iframe, or cross-origin new tab with a warning), HTML content
(popup or hidden iframe around `buildLegacyPrintHtml`).  Load-callback
work (focus/print/cleanup timers) happens after the promise resolves and
is not part of the trace. -/
def legacyPrint (env : Env) (options : Option LegacyPrintOptions) : M Unit := do
  emitM (Ev.call "legacyPrint")
  match options with
  | none => nativeOrThrow env
  | some o =>
    if !truthyStr o.html && !truthyStr o.url then nativeOrThrow env
    else if truthyStr o.url then do
      if !(env.hasWindow && env.hasDocument) then throwM Err.cannotOpenWindowEnv
      else
        let url := o.url.getD ""
        let isSameOrigin := env.hasWindow && sameOrigin env url
        if truthyBool o.popup then do
          emitM (Ev.windowOpen url (popupFeatures o))
          if env.windowOpenOk then pureM () else throwM Err.popupBlocked
        else if !isSameOrigin then do
          emitM (Ev.warn (WarnK.crossOrigin url))
          emitM (Ev.windowOpen url none)
          if env.windowOpenOk then pureM () else throwM Err.popupBlocked
        else do
          emitM (Ev.iframeUrl url)
          pureM ()
    else if truthyStr o.html then do
      if !env.hasDocument then throwM Err.cannotCreateIframeEnv
      else
        let finalHtml := buildLegacyPrintHtml (o.html.getD "") (some o)
        if truthyBool o.popup then do
          emitM (Ev.popupOpen (popupFeatures o))
          if env.windowOpenOk then do
            emitM (Ev.popupWrite finalHtml)
            pureM ()
          else throwM Err.popupBlocked
        else
          if env.iframeContentWindowOk then do
            emitM (Ev.iframeHtml finalHtml)
            pureM ()
          else throwM Err.iframeContentWindowFailed
    else pureM ()

/-! ### Dispatcher: normalization, memoized template render, auto chain -/

/-- Normalization of the legacy (browser) working copy in `print`: take
`options.legacy`, or derive one from the shared `html`/`url` when either is
truthy; then inject the shared fields into missing `html`/`url`. -/
def normLegacy (opts : PrintOptions) : Option LegacyPrintOptions :=
  let sharedHtml := opts.html
  let sharedUrl := opts.url
  let l0 : Option LegacyPrintOptions :=
    match opts.legacy with
    | some l => some l
    | none =>
      if truthyStr sharedHtml || truthyStr sharedUrl then
        some { html := sharedHtml, url := sharedUrl }
      else none
  let l1 := match l0 with
    | some l =>
      some (if truthyStr sharedHtml && !truthyStr l.html then { l with html := sharedHtml } else l)
    | none => none
  match l1 with
  | some l =>
    some (if truthyStr sharedUrl && !truthyStr l.url then { l with url := sharedUrl } else l)
  | none => none

/-- Normalization of the beast (cloud) working copy: take `options.beast`,
or derive `{mode:'html', html: sharedHtml}` when shared HTML is truthy;
inject shared html when `mode === 'html'` and own html is falsy; inject
shared url when own url is nullish. -/
def normBeast (opts : PrintOptions) : Option BeastPrintOptions :=
  let sharedHtml := opts.html
  let sharedUrl := opts.url
  let b0 : Option BeastPrintOptions :=
    match opts.beast with
    | some b => some b
    | none =>
      if truthyStr sharedHtml then some { mode := some "html", html := sharedHtml }
      else none
  let b1 := match b0 with
    | some b =>
      some (if truthyStr sharedHtml && b.mode = some "html" && !truthyStr b.html then
        { b with html := sharedHtml } else b)
    | none => none
  match b1 with
  | some b =>
    some (if truthyStr sharedUrl && b.url.isNone then { b with url := sharedUrl } else b)
  | none => none

/-- Normalization of the printdesk (agent) working copy: take
`options.printdesk` and inject the shared url when own url is nullish. -/
def normPrintdesk (opts : PrintOptions) : Option PrintdeskOptions :=
  match opts.printdesk with
  | some p =>
    some (if truthyStr opts.url && p.url.isNone then { p with url := opts.url } else p)
  | none => none

/-- The `hasBeastConfig` check of the auto chain: beast options with a
printer whose key is a non-empty string. -/
def hasBeastConfig : Option BeastPrintOptions → Bool
  | some b =>
    match b.printer with
    | some p => p.key.length > 0
    | none => false
  | none => false

/-- The `hasPrintdeskConfig` check of the auto chain: printdesk options with
a non-empty `html` or `url` (after shared-field injection). -/
def hasPrintdeskConfig : Option PrintdeskOptions → Bool
  | some p => truthyStr p.html || truthyStr p.url
  | none => false

/-- The `beastHasTemplate` flag: `!!beastOpts?.templateId`. -/
def beastHasTemplate : Option BeastPrintOptions → Bool
  | some b => truthyStr b.templateId
  | none => false

/-- Embedding of the `ensureRenderedTemplateHtml` closure of `print`: when a
beast template exists, render it at most once per call (memoized in the
state, only on success) and return the cached HTML afterwards. -/
def ensureRendered (env : Env) (beastOpts : Option BeastPrintOptions) : M (Option String) := do
  if !beastHasTemplate beastOpts then pureM none
  else do
    let r ← getRendered
    match r with
    | some h => pureM (some h)
    | none =>
      match beastOpts with
      | some b => do
        let h ← renderTemplateToHtml env (b.templateId.getD "") b.widthMm b.data
        setRendered (some h)
        pureM (some h)
      | none => pureM none

/-- The render-and-inject step used before a printdesk attempt: when the
working copy lacks truthy html and a beast template exists, lazily render
and inject the HTML (only when the rendered string is truthy). -/
def injectPrintdeskHtml (env : Env) (beastOpts : Option BeastPrintOptions) :
    Option PrintdeskOptions → M (Option PrintdeskOptions)
  | some p =>
    if !truthyStr p.html && beastHasTemplate beastOpts then do
      let h ← ensureRendered env beastOpts
      if truthyStr h then pureM (some { p with html := h })
      else pureM (some p)
    else pureM (some p)
  | none => pureM none

/-- The render-and-inject step used before a legacy attempt (same pattern as
for printdesk). -/
def injectLegacyHtml (env : Env) (beastOpts : Option BeastPrintOptions) :
    Option LegacyPrintOptions → M (Option LegacyPrintOptions)
  | some l =>
    if !truthyStr l.html && beastHasTemplate beastOpts then do
      let h ← ensureRendered env beastOpts
      if truthyStr h then pureM (some { l with html := h })
      else pureM (some l)
    else pureM (some l)
  | none => pureM none

/-- Embedding of the `maybeFallbackToLegacy` helper: rethrow unless
`fallbackToLegacyOnError` is set and legacy options exist, in which case
warn and run the legacy adapter. -/
def maybeFallbackToLegacy (env : Env) (fallbackToLegacy : Bool)
    (legacyOpts : Option LegacyPrintOptions) (err : Err) : M Unit :=
  if !fallbackToLegacy || legacyOpts.isNone then throwM err
  else do
    emitM (Ev.warn WarnK.strategyFallback)
    legacyPrint env legacyOpts

/-- Body of the auto chain's printdesk (agent) stage try-block: the
render-and-inject step followed by the printdesk adapter. -/
def agentAttempt (env : Env) (beastOpts : Option BeastPrintOptions)
    (printdeskOpts : Option PrintdeskOptions) : M Unit := do
  let po ← injectPrintdeskHtml env beastOpts printdeskOpts
  printdeskPrint env po

/-- The auto chain: Beast (cloud) then Printdesk (agent) then Legacy
(browser); cloud/agent failures are warned and swallowed; the legacy stage
is terminal; with nothing usable the aggregate error is thrown. -/
def autoChain (env : Env) (beastOpts : Option BeastPrintOptions)
    (printdeskOpts : Option PrintdeskOptions)
    (legacyOpts : Option LegacyPrintOptions) : M Unit := do
  let cloudDone ← (if hasBeastConfig beastOpts then
      tryCatchM (do
          beastPrint env beastOpts
          pureM true)
        (fun _ => do
          emitM (Ev.warn WarnK.cloudAutoFailed)
          pureM false)
    else pureM false)
  if cloudDone then pureM ()
  else do
    let agentDone ← (if hasPrintdeskConfig printdeskOpts then
        tryCatchM (do
            agentAttempt env beastOpts printdeskOpts
            pureM true)
          (fun _ => do
            emitM (Ev.warn WarnK.printdeskAutoFailed)
            pureM false)
      else pureM false)
    if agentDone then pureM ()
    else
      match legacyOpts with
      | some _ => do
        let lo ← injectLegacyHtml env beastOpts legacyOpts
        legacyPrint env lo
      | none => throwM Err.noUsableConfiguration

/-- Body of `print` inside the debug-scope try: reset the per-call memo,
normalize the working copies, then run the explicit strategy or the auto
chain.  Explicit `beast`/`printdesk` failures go through
`maybeFallbackToLegacy`; explicit `legacy` never falls back. -/
def printBody (env : Env) (opts : PrintOptions) : M Unit := do
  setRendered none
  let strategy := opts.strategy.getD PrintStrategy.auto
  let fallbackToLegacy := opts.fallbackToLegacyOnError = some true
  let legacyOpts := normLegacy opts
  let beastOpts := normBeast opts
  let printdeskOpts := normPrintdesk opts
  match strategy with
  | PrintStrategy.legacy => do
    let lo ← injectLegacyHtml env beastOpts legacyOpts
    legacyPrint env lo
  | PrintStrategy.beast =>
    tryCatchM (beastPrint env beastOpts)
      (fun e => maybeFallbackToLegacy env fallbackToLegacy legacyOpts e)
  | PrintStrategy.printdesk => do
    let po ← injectPrintdeskHtml env beastOpts printdeskOpts
    tryCatchM (printdeskPrint env po)
      (fun e => maybeFallbackToLegacy env fallbackToLegacy legacyOpts e)
  | PrintStrategy.auto => autoChain env beastOpts printdeskOpts legacyOpts

/-- The spread-merge `{..._debugConfig, ...debug}` of `configureDebug`. -/
def mergeDebug (prev update : DebugConfig) : DebugConfig :=
  { enabled := match update.enabled with
      | some b => some b
      | none => prev.enabled }

/-- Embedding of the exported `configureDebug(debug)`: merge the update into
the module-level debug config. -/
def configureDebug (update : DebugConfig) (s : St) : St :=
  { s with debugConfig := mergeDebug s.debugConfig update }

/-- The save/override/restore pattern of `print`: snapshot the module-level
debug config, apply the per-call boolean override when given, run the body,
and restore the snapshot on every exit path (the `finally`). -/
def withDebugScope (dbg : Option Bool) (body : M Unit) : M Unit := fun s =>
  let prev := s.debugConfig
  let s1 := match dbg with
    | some b => { s with debugConfig := mergeDebug s.debugConfig { enabled := some b } }
    | none => s
  match body s1 with
  | (r, s2) => (r, { s2 with debugConfig := prev })

/-- Embedding of the exported `print(options?)`. -/
def print (env : Env) (opts : PrintOptions) : M Unit :=
  withDebugScope opts.debug (printBody env opts)

/-! ### Helper lemmas -/

/-- The debug-scope wrapper restores the entry snapshot of the debug config
on every exit path, whatever the body does to the state. -/
theorem withDebugScope_restores (dbg : Option Bool) (body : M Unit) (s : St) :
    ((withDebugScope dbg body s).2).debugConfig = s.debugConfig := by
  unfold withDebugScope
  rcases hb : body (match dbg with
    | some b => { s with debugConfig := mergeDebug s.debugConfig { enabled := some b } }
    | none => s) with ⟨r, s2⟩
  simp [hb]

/-- The debug-scope wrapper does not change the result or the trace or the
memo relative to its body (it only manipulates the debug config). -/
theorem withDebugScope_fst (dbg : Option Bool) (body : M Unit) (s : St) :
    (withDebugScope dbg body s).1 =
      (body (match dbg with
        | some b => { s with debugConfig := mergeDebug s.debugConfig { enabled := some b } }
        | none => s)).1 := by
  unfold withDebugScope
  rcases hb : body (match dbg with
    | some b => { s with debugConfig := mergeDebug s.debugConfig { enabled := some b } }
    | none => s) with ⟨r, s2⟩
  simp [hb]

/-- Trace of a debug-scoped run equals the trace of its body's run. -/
theorem withDebugScope_trace (dbg : Option Bool) (body : M Unit) (s : St) :
    ((withDebugScope dbg body s).2).trace =
      ((body (match dbg with
        | some b => { s with debugConfig := mergeDebug s.debugConfig { enabled := some b } }
        | none => s)).2).trace := by
  unfold withDebugScope
  rcases hb : body (match dbg with
    | some b => { s with debugConfig := mergeDebug s.debugConfig { enabled := some b } }
    | none => s) with ⟨r, s2⟩
  simp [hb]

/-! ### Event-classifier computation lemmas -/

@[simp] theorem isLegacyCall_beastCall : isLegacyCall (Ev.call "beastPrint") = false := by
  decide

@[simp] theorem isLegacyCall_printdeskCall :
    isLegacyCall (Ev.call "printdeskPrint") = false := by decide

@[simp] theorem isLegacyCall_legacyCall : isLegacyCall (Ev.call "legacyPrint") = true := by
  decide

@[simp] theorem isLegacyCall_netPrint (b : CloudBody) :
    isLegacyCall (Ev.netPrint b) = false := rfl

@[simp] theorem isLegacyCall_netRender (t : String) (w : Nat) (d : JsonData) :
    isLegacyCall (Ev.netRender t w d) = false := rfl

@[simp] theorem isLegacyCall_netFetchUrl (u : String) :
    isLegacyCall (Ev.netFetchUrl u) = false := rfl

@[simp] theorem isLegacyCall_netLocal (u h : String) :
    isLegacyCall (Ev.netLocal u h) = false := rfl

@[simp] theorem isLegacyCall_warn (k : WarnK) : isLegacyCall (Ev.warn k) = false := rfl

@[simp] theorem isCloudWarn_call (f : String) : isCloudWarn (Ev.call f) = false := rfl

@[simp] theorem isCloudWarn_netPrint (b : CloudBody) :
    isCloudWarn (Ev.netPrint b) = false := rfl

@[simp] theorem isCloudWarn_netRender (t : String) (w : Nat) (d : JsonData) :
    isCloudWarn (Ev.netRender t w d) = false := rfl

@[simp] theorem isCloudWarn_netFetchUrl (u : String) :
    isCloudWarn (Ev.netFetchUrl u) = false := rfl

@[simp] theorem isCloudWarn_netLocal (u h : String) :
    isCloudWarn (Ev.netLocal u h) = false := rfl

@[simp] theorem isCloudWarn_cloudWarn : isCloudWarn (Ev.warn WarnK.cloudAutoFailed) = true :=
  rfl

@[simp] theorem isCloudWarn_printdeskWarn :
    isCloudWarn (Ev.warn WarnK.printdeskAutoFailed) = false := rfl

@[simp] theorem isNetRender_call (f : String) : isNetRender (Ev.call f) = false := rfl

@[simp] theorem isNetRender_netPrint (b : CloudBody) :
    isNetRender (Ev.netPrint b) = false := rfl

@[simp] theorem isNetRender_netRender (t : String) (w : Nat) (d : JsonData) :
    isNetRender (Ev.netRender t w d) = true := rfl

@[simp] theorem isNetRender_netFetchUrl (u : String) :
    isNetRender (Ev.netFetchUrl u) = false := rfl

@[simp] theorem isNetRender_netLocal (u h : String) :
    isNetRender (Ev.netLocal u h) = false := rfl

@[simp] theorem isNetRender_warn (k : WarnK) : isNetRender (Ev.warn k) = false := rfl

@[simp] theorem isNetRender_iframeHtml (d : String) :
    isNetRender (Ev.iframeHtml d) = false := rfl

@[simp] theorem isNetworkEv_call (f : String) : isNetworkEv (Ev.call f) = false := rfl

/-! ### Run-shape lemmas for the auto-chain stages -/

/-- With the cloud print endpoint failing, the Cloud (beast) adapter always
errors; it only appends its own events (no browser invocation, no
cloud-failure warning of its own) and leaves the memo and debug state
untouched. -/
theorem beastPrint_fails_run (env : Env) (bo : Option BeastPrintOptions) (s : St)
    (hc : env.cloudPrintOk = false) :
    ∃ e δ, beastPrint env bo s = (Except.error e, { s with trace := s.trace ++ δ })
      ∧ List.countP isLegacyCall δ = 0 ∧ List.countP isCloudWarn δ = 0 := by
  rcases bo with _ | b
  · exact ⟨Err.noBeastOptions, [Ev.call "beastPrint"],
      by simp [beastPrint, bindM, emitM, throwM], by simp, by simp⟩
  rcases hbp : b.printer with _ | p
  · exact ⟨Err.printerKeyRequired, [Ev.call "beastPrint"],
      by simp [beastPrint, hbp, bindM, emitM, throwM], by simp, by simp⟩
  by_cases hk : p.key = ""
  · exact ⟨Err.printerKeyRequired, [Ev.call "beastPrint"],
      by simp [beastPrint, hbp, hk, bindM, emitM, throwM], by simp, by simp⟩
  cases ht : truthyStr b.templateId with
  | true =>
    exact ⟨Err.beastHttp env.cloudPrintStatus env.cloudPrintErrText,
      [Ev.call "beastPrint",
       Ev.netPrint
         { mode := "template", widthMm := b.widthMm.getD 80,
           templateId := b.templateId, data := some (b.data.getD []),
           content := none, printer := p }],
      by simp [beastPrint, hbp, hk, ht, hc, bindM, emitM, throwM, pureM],
      by simp, by simp⟩
  | false =>
    by_cases hmt : b.mode.getD "template" = "template"
    · exact ⟨Err.templateIdRequired, [Ev.call "beastPrint"],
        by simp [beastPrint, hbp, hk, ht, hmt, bindM, emitM, throwM], by simp, by simp⟩
    by_cases hmh : b.mode.getD "template" = "html"
    · cases hf : (!truthyStr b.html && truthyStr b.url) with
      | false =>
        cases hh : truthyStr b.html with
        | false =>
          have hu : truthyStr b.url = false := by simpa [hh] using hf
          exact ⟨Err.htmlRequired, [Ev.call "beastPrint"],
            by simp [beastPrint, hbp, hk, ht, hmt, hmh, hh, hu, bindM, emitM, throwM,
              pureM], by simp, by simp⟩
        | true =>
          exact ⟨Err.beastHttp env.cloudPrintStatus env.cloudPrintErrText,
            [Ev.call "beastPrint",
             Ev.netPrint
               { mode := "html", widthMm := b.widthMm.getD 80,
                 templateId := none, data := none,
                 content := some (b.html.getD ""), printer := p }],
            by simp [beastPrint, hbp, hk, ht, hmt, hmh, hf, hh, hc, bindM, emitM,
              throwM, pureM], by simp, by simp⟩
      | true =>
        cases hfo : env.fetchUrlOk with
        | false =>
          exact ⟨Err.fetchUrlFailed env.fetchUrlStatus env.fetchUrlErrText,
            [Ev.call "beastPrint", Ev.netFetchUrl (b.url.getD "")],
            by simp [beastPrint, hbp, hk, ht, hmt, hmh, hf, hfo, bindM, emitM,
              throwM, pureM], by simp, by simp⟩
        | true =>
          cases hft : truthyStr (some (env.fetchUrlText (b.url.getD ""))) with
          | false =>
            exact ⟨Err.htmlRequired,
              [Ev.call "beastPrint", Ev.netFetchUrl (b.url.getD "")],
              by simp [beastPrint, hbp, hk, ht, hmt, hmh, hf, hfo, hft, bindM, emitM,
                throwM, pureM], by simp, by simp⟩
          | true =>
            exact ⟨Err.beastHttp env.cloudPrintStatus env.cloudPrintErrText,
              [Ev.call "beastPrint", Ev.netFetchUrl (b.url.getD ""),
               Ev.netPrint
                 { mode := "html", widthMm := b.widthMm.getD 80,
                   templateId := none, data := none,
                   content := some (env.fetchUrlText (b.url.getD "")), printer := p }],
              by simp [beastPrint, hbp, hk, ht, hmt, hmh, hf, hfo, hft, hc, bindM,
                emitM, throwM, pureM], by simp, by simp⟩
    · exact ⟨Err.unsupportedMode (b.mode.getD "template"), [Ev.call "beastPrint"],
        by simp [beastPrint, hbp, hk, ht, hmt, hmh, bindM, emitM, throwM],
        by simp, by simp⟩

/-- The Printdesk (agent) adapter only appends its own events: no browser
invocation, no cloud warning, and it leaves the memo and debug state
untouched. -/
theorem printdeskPrint_run (env : Env) (po : Option PrintdeskOptions) (s : St) :
    ∃ res δ, printdeskPrint env po s = (res, { s with trace := s.trace ++ δ })
      ∧ List.countP isLegacyCall δ = 0 ∧ List.countP isCloudWarn δ = 0 := by
  rcases po with _ | o
  · exact ⟨Except.error Err.noPrintdeskOptions, [Ev.call "printdeskPrint"],
      by simp [printdeskPrint, bindM, emitM, throwM], by simp, by simp⟩
  cases hh : truthyStr o.html with
  | true =>
    cases hlo : env.localOk with
    | true =>
      exact ⟨Except.ok (),
        [Ev.call "printdeskPrint",
         Ev.netLocal (o.localUrl.getD "http://127.0.0.1:43594/print") (o.html.getD "")],
        by simp [printdeskPrint, hh, hlo, bindM, emitM, throwM, pureM], by simp, by simp⟩
    | false =>
      exact ⟨Except.error (Err.printdeskLocalFailed env.localStatus env.localErrText),
        [Ev.call "printdeskPrint",
         Ev.netLocal (o.localUrl.getD "http://127.0.0.1:43594/print") (o.html.getD "")],
        by simp [printdeskPrint, hh, hlo, bindM, emitM, throwM, pureM], by simp, by simp⟩
  | false =>
    cases hu : truthyStr o.url with
    | false =>
      exact ⟨Except.error Err.printdeskHtmlRequired, [Ev.call "printdeskPrint"],
        by simp [printdeskPrint, hh, hu, bindM, emitM, throwM, pureM], by simp, by simp⟩
    | true =>
      cases hfo : env.fetchUrlOk with
      | false =>
        exact ⟨Except.error
            (Err.printdeskFetchFailed env.fetchUrlStatus env.fetchUrlErrText),
          [Ev.call "printdeskPrint", Ev.netFetchUrl (o.url.getD "")],
          by simp [printdeskPrint, hh, hu, hfo, bindM, emitM, throwM, pureM],
          by simp, by simp⟩
      | true =>
        cases hft : truthyStr (some (env.fetchUrlText (o.url.getD ""))) with
        | false =>
          exact ⟨Except.error Err.printdeskHtmlRequired,
            [Ev.call "printdeskPrint", Ev.netFetchUrl (o.url.getD "")],
            by simp [printdeskPrint, hh, hu, hfo, hft, bindM, emitM, throwM, pureM],
            by simp, by simp⟩
        | true =>
          cases hlo : env.localOk with
          | true =>
            exact ⟨Except.ok (),
              [Ev.call "printdeskPrint", Ev.netFetchUrl (o.url.getD ""),
               Ev.netLocal (o.localUrl.getD "http://127.0.0.1:43594/print")
                 (env.fetchUrlText (o.url.getD ""))],
              by simp [printdeskPrint, hh, hu, hfo, hft, hlo, bindM, emitM, throwM,
                pureM], by simp, by simp⟩
          | false =>
            exact ⟨Except.error (Err.printdeskLocalFailed env.localStatus env.localErrText),
              [Ev.call "printdeskPrint", Ev.netFetchUrl (o.url.getD ""),
               Ev.netLocal (o.localUrl.getD "http://127.0.0.1:43594/print")
                 (env.fetchUrlText (o.url.getD ""))],
              by simp [printdeskPrint, hh, hu, hfo, hft, hlo, bindM, emitM, throwM,
                pureM], by simp, by simp⟩

/-- The memoized template render only appends render events and only
updates the memo field. -/
theorem ensureRendered_run (env : Env) (bo : Option BeastPrintOptions) (s : St) :
    ∃ res δ r, ensureRendered env bo s = (res, { s with trace := s.trace ++ δ, rendered := r })
      ∧ List.countP isLegacyCall δ = 0 ∧ List.countP isCloudWarn δ = 0 := by
  cases hbht : beastHasTemplate bo with
  | false =>
    exact ⟨Except.ok none, [], s.rendered,
      by simp [ensureRendered, hbht, bindM, pureM], by simp, by simp⟩
  | true =>
    rcases bo with _ | b
    · simp [beastHasTemplate] at hbht
    cases hr : s.rendered with
    | some h =>
      refine ⟨Except.ok (some h), [], some h, ?_, by simp, by simp⟩
      cases s with
      | mk t d rr =>
        simp only [St.rendered] at hr
        subst hr
        simp [ensureRendered, hbht, bindM, pureM, getRendered]
    | none =>
      cases hro : env.renderOk with
      | true =>
        exact ⟨Except.ok (some env.renderHtml),
          [Ev.netRender (b.templateId.getD "") (b.widthMm.getD 80) (b.data.getD [])],
          some env.renderHtml,
          by simp [ensureRendered, hbht, hr, hro, renderTemplateToHtml, bindM, pureM,
            getRendered, setRendered, emitM], by simp, by simp⟩
      | false =>
        exact ⟨Except.error (Err.renderFailed env.renderStatus env.renderErrText),
          [Ev.netRender (b.templateId.getD "") (b.widthMm.getD 80) (b.data.getD [])],
          s.rendered,
          by simp [ensureRendered, hbht, hr, hro, renderTemplateToHtml, bindM, pureM,
            getRendered, setRendered, emitM, throwM], by simp, by simp⟩

/-- The render-and-inject step before a printdesk attempt only appends
render events and only updates the memo field. -/
theorem injectPrintdeskHtml_run (env : Env) (bo : Option BeastPrintOptions)
    (po : Option PrintdeskOptions) (s : St) :
    ∃ res δ r, injectPrintdeskHtml env bo po s =
        (res, { s with trace := s.trace ++ δ, rendered := r })
      ∧ List.countP isLegacyCall δ = 0 ∧ List.countP isCloudWarn δ = 0 := by
  rcases po with _ | p
  · exact ⟨Except.ok none, [], s.rendered, by simp [injectPrintdeskHtml, pureM],
      by simp, by simp⟩
  cases hcnd : (!truthyStr p.html && beastHasTemplate bo) with
  | false =>
    exact ⟨Except.ok (some p), [], s.rendered,
      by simp [injectPrintdeskHtml, hcnd, pureM], by simp, by simp⟩
  | true =>
    obtain ⟨res1, δ1, r1, h1, hl1, hw1⟩ := ensureRendered_run env bo s
    rcases res1 with e | h
    · exact ⟨Except.error e, δ1, r1,
        by simp [injectPrintdeskHtml, hcnd, bindM, h1], hl1, hw1⟩
    · cases hth : truthyStr h with
      | true =>
        exact ⟨Except.ok (some { p with html := h }), δ1, r1,
          by simp [injectPrintdeskHtml, hcnd, bindM, h1, hth, pureM], hl1, hw1⟩
      | false =>
        exact ⟨Except.ok (some p), δ1, r1,
          by simp [injectPrintdeskHtml, hcnd, bindM, h1, hth, pureM], hl1, hw1⟩

/-- The auto chain's agent-stage attempt (render-and-inject followed by the
printdesk adapter) only appends non-browser, non-cloud-warning events. -/
theorem agentAttempt_run (env : Env) (bo : Option BeastPrintOptions)
    (po : Option PrintdeskOptions) (s : St) :
    ∃ res δ r, agentAttempt env bo po s =
        (res, { s with trace := s.trace ++ δ, rendered := r })
      ∧ List.countP isLegacyCall δ = 0 ∧ List.countP isCloudWarn δ = 0 := by
  obtain ⟨res1, δ1, r1, h1, hl1, hw1⟩ := injectPrintdeskHtml_run env bo po s
  rcases res1 with e | po'
  · exact ⟨Except.error e, δ1, r1, by simp [agentAttempt, bindM, h1], hl1, hw1⟩
  · obtain ⟨res2, δ2, h2, hl2, hw2⟩ :=
      printdeskPrint_run env po' { s with trace := s.trace ++ δ1, rendered := r1 }
    refine ⟨res2, δ1 ++ δ2, r1, ?_, ?_, ?_⟩
    · have hstep : agentAttempt env bo po s
          = printdeskPrint env po' { s with trace := s.trace ++ δ1, rendered := r1 } := by
        simp [agentAttempt, bindM, h1]
      rw [hstep, h2]
      simp [List.append_assoc]
    · simp [List.countP_append, hl1, hl2]
    · simp [List.countP_append, hw1, hw2]

/-! ### Claims -/

/-- The browser-options value of claim C8's scenario:
`pageWidthMm = 80`, `marginMm = 0`. -/
def legacyOpts80 : LegacyPrintOptions :=
  { pageWidthMm := some 80, marginMm := some 0 }

/-- C8: for every html input without an html root tag, with pageWidthMm 80
and marginMm 0, the generated printable document is a full document that
contains an at-page rule with size 80mm and margin 0mm and contains the
original fragment inside the body element; and the margin defaults to 0
whenever marginMm is absent. -/
theorem c8_fragment_wrapped_document :
    (∀ (html : String) (o : LegacyPrintOptions),
        buildLegacyPrintHtml html (some { o with marginMm := none }) =
        buildLegacyPrintHtml html (some { o with marginMm := some 0 }))
    ∧ (∀ html : String, hasHtmlTag html = false →
        ∃ pre post, buildLegacyPrintHtml html (some legacyOpts80) = pre ++ html ++ post
          ∧ strContains pre "@page" = true
          ∧ strContains pre "size: 80mm;" = true
          ∧ strContains pre "margin: 0mm;" = true
          ∧ strContains pre "<body>" = true
          ∧ strContains post "</body>" = true) := by
  constructor
  · intro html o
    rfl
  · intro html h
    refine ⟨fragPart1 ++ "size: 80mm;\n        margin: 0mm;" ++ fragPart2 ++
      hideChromeCssOn ++ fragPart3, fragPart4, ?_, by decide, by decide, by decide,
      by decide, by decide⟩
    simp [buildLegacyPrintHtml, legacyOpts80, h, pageRules, truthyNat]
    rfl

/-- C8 witness: instantiation at the fragment of the spec's example. -/
theorem c8_witness :
    hasHtmlTag "<div>x</div>" = false
    ∧ ∃ pre post,
        buildLegacyPrintHtml "<div>x</div>" (some legacyOpts80) = pre ++ "<div>x</div>" ++ post
        ∧ strContains pre "@page" = true
        ∧ strContains pre "size: 80mm;" = true
        ∧ strContains pre "margin: 0mm;" = true
        ∧ strContains pre "<body>" = true
        ∧ strContains post "</body>" = true :=
  ⟨by decide, c8_fragment_wrapped_document.2 "<div>x</div>" (by decide)⟩

/-- C9: after a print call with a per-call debug override, the module-level
debug flag equals whatever it was immediately before the call, on every
exit path. -/
theorem c9_debug_override_restored (env : Env) (opts : PrintOptions) (s : St)
    (b : Bool) (_h : opts.debug = some b) :
    ((print env opts s).2).debugConfig = s.debugConfig := by
  unfold print
  exact withDebugScope_restores opts.debug (printBody env opts) s

/-- Environment used by several witnesses: a working browser context whose
network calls all succeed. -/
def envOkW : Env :=
  { cloudPrintOk := true, renderOk := true, renderHtml := "<p>R</p>",
    fetchUrlOk := true, fetchUrlText := fun _ => "<p>F</p>", localOk := true,
    hasWindow := true, hasDocument := true, windowPrintFn := true,
    windowOpenOk := true, iframeContentWindowOk := true,
    originOf := fun _ => some "https://a.example", locationOrigin := "https://a.example" }

/-- Initial state used by witnesses: empty trace, debug disabled, no memo. -/
def st0 : St :=
  { trace := [], debugConfig := { enabled := some false }, rendered := none }

/-- C9 witness: a concrete call with debug override true restores the
pre-call debug config. -/
theorem c9_witness :
    ((print envOkW { debug := some true, html := some "<p>w</p>" } st0).2).debugConfig
      = st0.debugConfig :=
  c9_debug_override_restored envOkW { debug := some true, html := some "<p>w</p>" } st0
    true rfl

/-- C10 (implicit): on every exit of a print call the module-level debug
config is reset to the exact snapshot taken at entry; hence a
configureDebug issued before the call survives it (first conjunct: the
restored snapshot is the merged config), while any in-flight mutation of
the state is discarded at exit (second conjunct holds for an arbitrary
body, hence for a body interleaving configureDebug calls); the third
conjunct records that `print` is exactly this save/restore wrapper around
its body. -/
theorem c10_debug_snapshot_reset (env : Env) (opts : PrintOptions)
    (u : DebugConfig) (s : St) :
    ((print env opts (configureDebug u s)).2).debugConfig = mergeDebug s.debugConfig u
    ∧ (∀ body : M Unit, ((withDebugScope opts.debug body s).2).debugConfig = s.debugConfig)
    ∧ print env opts = withDebugScope opts.debug (printBody env opts) := by
  refine ⟨?_, fun body => withDebugScope_restores opts.debug body s, rfl⟩
  unfold print
  exact withDebugScope_restores opts.debug (printBody env opts) (configureDebug u s)

/-- C6 (code bug): the Agent Adapter of the spec posts
`{payload:{html, pdfOptions, printer}}` with pdfOptions merged over the
fixed defaults, and the repository README documents exactly that payload
and the default set — but the shipped `printdeskPrint` has no pdfOptions
or printer handling at all (`PrintdeskOptions` carries only
`html`/`url`/`localUrl`) and posts the bare `{html}` object.  This theorem
evaluates the adapter at a concrete input: the run succeeds and the one
local-agent POST it issues carries only the HTML string, so no merged
pdfOptions object (with copies overridden or otherwise) is ever sent. -/
theorem c6_agent_posts_bare_html :
    ((printdeskPrint envOkW (some { html := some "<p>a</p>" })) st0).1 = Except.ok ()
    ∧ (((printdeskPrint envOkW (some { html := some "<p>a</p>" })) st0).2).trace
      = [Ev.call "printdeskPrint",
         Ev.netLocal "http://127.0.0.1:43594/print" "<p>a</p>"] := by
  constructor
  · rfl
  · rfl

/-- C2: whenever the cloud options carry a truthy templateId, the Cloud
Adapter operates in template mode: its behavior is independent of any
declared `mode` field (first conjunct, for every declared mode including
"html"), and with a valid printer the one request it sends is the template
body `{mode:"template", templateId, widthMm (default 80), data (default
empty), printer}` (second conjunct gives the exact trace). -/
theorem c2_templateId_forces_template_mode (env : Env) (o : BeastPrintOptions)
    (p : BeastPrintPrinter) (m : Option String) (s : St)
    (hp : o.printer = some p) (hk : p.key ≠ "")
    (ht : truthyStr o.templateId = true) :
    beastPrint env (some { o with mode := m }) = beastPrint env (some o)
    ∧ ((beastPrint env (some o)) s).2.trace = s.trace ++
        [Ev.call "beastPrint",
         Ev.netPrint
           { mode := "template", widthMm := o.widthMm.getD 80,
             templateId := o.templateId, data := some (o.data.getD []),
             content := none, printer := p }] := by
  constructor
  · funext s'
    simp only [beastPrint, hp, ht, bindIsBindM]
    simp [hk]
  · rcases hc : env.cloudPrintOk with _ | _ <;>
      simp [beastPrint, hp, ht, hk, hc, bindM, emitM, pureM, throwM]

/-- The cloud options of claim C2's witness: templateId present and mode
explicitly declared as html. -/
def beastOptsC2 : BeastPrintOptions :=
  { mode := some "html", templateId := some "t1", html := some "<p>H</p>",
    printer := some { key := "k", profileKey := none } }

/-- C2 witness: with the mode field declared "html" and a templateId
present, the adapter still behaves identically under any replacement of
the mode field and posts the template body. -/
theorem c2_witness :
    beastPrint envOkW (some { beastOptsC2 with mode := some "template" })
      = beastPrint envOkW (some beastOptsC2)
    ∧ ((beastPrint envOkW (some beastOptsC2)) st0).2.trace = st0.trace ++
        [Ev.call "beastPrint",
         Ev.netPrint
           { mode := "template", widthMm := beastOptsC2.widthMm.getD 80,
             templateId := beastOptsC2.templateId,
             data := some (beastOptsC2.data.getD []),
             content := none, printer := { key := "k", profileKey := none } }] :=
  c2_templateId_forces_template_mode envOkW beastOptsC2 { key := "k", profileKey := none }
    (some "template") st0 rfl (by decide) (by decide)

/-- C7: for URL-content printing with popup false in a browser context, a
same-origin URL is loaded into the hidden iframe (the trace shows exactly
the adapter entry and the iframe load, no window open) and the call
resolves; a cross-origin URL is opened in a new tab after a warning (trace
shows entry, warning, window open; no iframe) and the call still resolves
successfully. -/
theorem c7_url_same_origin_vs_cross_origin (env : Env) (o : LegacyPrintOptions) (s : St)
    (hw : env.hasWindow = true) (hd : env.hasDocument = true)
    (hu : truthyStr o.url = true) (hpop : truthyBool o.popup = false) :
    (sameOrigin env (o.url.getD "") = true →
      ((legacyPrint env (some o)) s).1 = Except.ok ()
      ∧ ((legacyPrint env (some o)) s).2.trace =
          s.trace ++ [Ev.call "legacyPrint", Ev.iframeUrl (o.url.getD "")])
    ∧ (sameOrigin env (o.url.getD "") = false → env.windowOpenOk = true →
      ((legacyPrint env (some o)) s).1 = Except.ok ()
      ∧ ((legacyPrint env (some o)) s).2.trace =
          s.trace ++ [Ev.call "legacyPrint",
            Ev.warn (WarnK.crossOrigin (o.url.getD "")),
            Ev.windowOpen (o.url.getD "") none]) := by
  constructor
  · intro hso
    constructor <;>
      simp [legacyPrint, hw, hd, hu, hpop, hso, bindM, emitM, pureM, throwM]
  · intro hso hopen
    constructor <;>
      simp [legacyPrint, hw, hd, hu, hpop, hso, hopen, bindM, emitM, pureM, throwM]

/-- Browser environment whose location origin differs from every parsed
URL origin (used for the cross-origin half of the C7 witness). -/
def envCrossW : Env :=
  { envOkW with locationOrigin := "https://b.example" }

/-- C7 witness: both halves at a concrete URL — same-origin in `envOkW`
(every URL parses to the location origin) and cross-origin in `envCrossW`. -/
theorem c7_witness :
    (((legacyPrint envOkW (some { url := some "https://a.example/r" })) st0).1 = Except.ok ()
      ∧ ((legacyPrint envOkW (some { url := some "https://a.example/r" })) st0).2.trace =
          st0.trace ++ [Ev.call "legacyPrint", Ev.iframeUrl "https://a.example/r"])
    ∧ (((legacyPrint envCrossW (some { url := some "https://a.example/r" })) st0).1 = Except.ok ()
      ∧ ((legacyPrint envCrossW (some { url := some "https://a.example/r" })) st0).2.trace =
          st0.trace ++ [Ev.call "legacyPrint",
            Ev.warn (WarnK.crossOrigin "https://a.example/r"),
            Ev.windowOpen "https://a.example/r" none]) :=
  ⟨(c7_url_same_origin_vs_cross_origin envOkW { url := some "https://a.example/r" } st0
      rfl rfl (by decide) (by decide)).1 (by decide),
   (c7_url_same_origin_vs_cross_origin envCrossW { url := some "https://a.example/r" } st0
      rfl rfl (by decide) (by decide)).2 (by decide) rfl⟩

/-- C5: an auto dispatch in which no stage is configured or usable (no
cloud printer key, no agent content, no browser options or shared content)
rejects with the aggregate no-configuration error, and the trace is
unchanged — in particular no network call is made. -/
theorem c5_auto_no_usable_configuration (env : Env) (opts : PrintOptions) (s : St)
    (h0 : opts.strategy.getD PrintStrategy.auto = PrintStrategy.auto)
    (h1 : hasBeastConfig (normBeast opts) = false)
    (h2 : hasPrintdeskConfig (normPrintdesk opts) = false)
    (h3 : normLegacy opts = none) :
    (print env opts s).1 = Except.error Err.noUsableConfiguration
    ∧ ((print env opts s).2).trace = s.trace := by
  have hbody : ∀ s1 : St, printBody env opts s1 =
      (Except.error Err.noUsableConfiguration, { s1 with rendered := none }) := by
    intro s1
    unfold printBody
    rcases hs : opts.strategy with _ | st
    · simp [autoChain, h1, h2, h3, bindM, setRendered, pureM, throwM]
    · rw [hs] at h0
      simp only [Option.getD_some] at h0
      rw [h0]
      simp [autoChain, h1, h2, h3, bindM, setRendered, pureM, throwM]
  constructor
  · unfold print
    rw [withDebugScope_fst, hbody]
  · unfold print
    rw [withDebugScope_trace, hbody]
    rcases opts.debug <;> simp

/-- C5 witness: a fully empty request in a working environment. -/
theorem c5_witness :
    (print envOkW {} st0).1 = Except.error Err.noUsableConfiguration
    ∧ ((print envOkW {} st0).2).trace = st0.trace :=
  c5_auto_no_usable_configuration envOkW {} st0 rfl rfl rfl rfl

/-- C4 counterexample: the claim states that every cloud-strategy request
lacking a printer key rejects with a configuration error, but with
`fallbackToLegacyOnError` set and shared HTML available in a working
browser context the dispatch resolves successfully instead of rejecting. -/
def optsC4 : PrintOptions :=
  { strategy := some PrintStrategy.beast, beast := some { printer := none },
    html := some "<div>x</div>", fallbackToLegacyOnError := some true }

/-- C4 counterexample theorem: the dispatch of `optsC4` resolves (does not
reject), refuting the unrestricted claim. -/
theorem c4_counterexample : (print envOkW optsC4 st0).1 = Except.ok () := by
  rfl

/-- C4 (amended): with strategy cloud (beast), options lacking a non-empty
printer.key, and the legacy fallback not effective (flag unset or no
browser options derivable), dispatch rejects with a configuration error
before any network call: the trace gains only the adapter-entry marker and
its network-call count is unchanged. -/
theorem c4_cloud_missing_key_rejects (env : Env) (opts : PrintOptions) (s : St)
    (h0 : opts.strategy = some PrintStrategy.beast)
    (h1 : hasBeastConfig (normBeast opts) = false)
    (h2 : opts.fallbackToLegacyOnError ≠ some true ∨ normLegacy opts = none) :
    ∃ e, (print env opts s).1 = Except.error e
      ∧ e.isConfigurationError = true
      ∧ ((print env opts s).2).trace = s.trace ++ [Ev.call "beastPrint"]
      ∧ List.countP isNetworkEv (((print env opts s).2).trace)
          = List.countP isNetworkEv s.trace := by
  have hbeast : ∃ e : Err, e.isConfigurationError = true ∧
      ∀ s' : St, beastPrint env (normBeast opts) s' =
        (Except.error e, { s' with trace := s'.trace ++ [Ev.call "beastPrint"] }) := by
    rcases hb : normBeast opts with _ | b
    · exact ⟨Err.noBeastOptions, rfl, fun s' => by
        simp [beastPrint, bindM, emitM, throwM]⟩
    · rcases hbp : b.printer with _ | p
      · exact ⟨Err.printerKeyRequired, rfl, fun s' => by
          simp [beastPrint, hbp, bindM, emitM, throwM]⟩
      · have hkl : ¬ p.key.length > 0 := by
          rw [hb] at h1
          simpa [hasBeastConfig, hbp] using h1
        have hk : p.key = "" := by
          rcases hkd : p.key with ⟨d⟩
          rw [hkd] at hkl
          have : d = [] := by
            have hlen : (String.mk d).length = 0 := Nat.eq_zero_of_not_pos hkl
            simpa [String.length] using hlen
          rw [this]
        exact ⟨Err.printerKeyRequired, rfl, fun s' => by
          simp [beastPrint, hbp, hk, bindM, emitM, throwM]⟩
  obtain ⟨e, hcfg, hrun⟩ := hbeast
  have hfall : ∀ (e' : Err) (s' : St),
      maybeFallbackToLegacy env (decide (opts.fallbackToLegacyOnError = some true))
        (normLegacy opts) e' s' = (Except.error e', s') := by
    intro e' s'
    rcases h2 with h2 | h2
    · have hf : (decide (opts.fallbackToLegacyOnError = some true)) = false := by
        simp [h2]
      simp [maybeFallbackToLegacy, hf, throwM]
    · simp [maybeFallbackToLegacy, h2, throwM]
  have hbody : ∀ s1 : St, printBody env opts s1 =
      (Except.error e,
        { s1 with rendered := none, trace := s1.trace ++ [Ev.call "beastPrint"] }) := by
    intro s1
    unfold printBody
    rw [h0]
    simp [bindM, setRendered, tryCatchM, hrun, hfall]
  refine ⟨e, ?_, hcfg, ?_, ?_⟩
  · unfold print
    rw [withDebugScope_fst, hbody]
  · unfold print
    rw [withDebugScope_trace, hbody]
    rcases opts.debug <;> simp
  · unfold print
    rw [withDebugScope_trace, hbody]
    rcases opts.debug <;> simp [List.countP_append, isNetworkEv]

/-- C4 witness for the amended theorem: a concrete beast-strategy request
with a printer whose key is empty and no fallback flag. -/
theorem c4_witness :
    ∃ e, (print envOkW
        { strategy := some PrintStrategy.beast,
          beast := some { printer := some { key := "", profileKey := none } } } st0).1
        = Except.error e
      ∧ e.isConfigurationError = true
      ∧ (((print envOkW
          { strategy := some PrintStrategy.beast,
            beast := some { printer := some { key := "", profileKey := none } } } st0).2)).trace
          = st0.trace ++ [Ev.call "beastPrint"]
      ∧ List.countP isNetworkEv (((print envOkW
          { strategy := some PrintStrategy.beast,
            beast := some { printer := some { key := "", profileKey := none } } } st0).2)).trace
          = List.countP isNetworkEv st0.trace :=
  c4_cloud_missing_key_rejects envOkW
    { strategy := some PrintStrategy.beast,
      beast := some { printer := some { key := "", profileKey := none } } } st0
    rfl (by decide) (Or.inl (by decide))

/-- C1: in an auto dispatch where the cloud stage is configured but its
attempt fails (failing print endpoint), the agent stage is configured and
its attempt succeeds, the browser backend is never invoked (no legacy-call
event is added to the trace), the dispatch resolves successfully, and the
cloud failure is logged (exactly one cloud-failure warning is added) but
not thrown to the caller. -/
theorem c1_auto_cloud_fails_agent_succeeds (env : Env) (opts : PrintOptions) (s : St)
    (h0 : opts.strategy.getD PrintStrategy.auto = PrintStrategy.auto)
    (h1 : hasBeastConfig (normBeast opts) = true)
    (hc : env.cloudPrintOk = false)
    (h3 : hasPrintdeskConfig (normPrintdesk opts) = true)
    (hA : ∀ s' : St, s'.rendered = none →
      (agentAttempt env (normBeast opts) (normPrintdesk opts) s').1 = Except.ok ()) :
    (print env opts s).1 = Except.ok ()
    ∧ List.countP isLegacyCall ((print env opts s).2).trace
        = List.countP isLegacyCall s.trace
    ∧ List.countP isCloudWarn ((print env opts s).2).trace
        = List.countP isCloudWarn s.trace + 1 := by
  have hbody : ∀ s1 : St, ∃ δ r, printBody env opts s1 =
      (Except.ok (), { s1 with trace := s1.trace ++ δ, rendered := r })
      ∧ List.countP isLegacyCall δ = 0
      ∧ List.countP isCloudWarn δ = 1 := by
    intro s1
    obtain ⟨e, δ1, hbe, hl1, hw1⟩ :=
      beastPrint_fails_run env (normBeast opts) { s1 with rendered := none } hc
    obtain ⟨res2, δ2, r2, hag, hl2, hw2⟩ :=
      agentAttempt_run env (normBeast opts) (normPrintdesk opts)
        { s1 with
          rendered := none,
          trace := s1.trace ++ (δ1 ++ [Ev.warn WarnK.cloudAutoFailed]) }
    have hres2 : res2 = Except.ok () := by
      have hx := hA { s1 with
          rendered := none,
          trace := s1.trace ++ (δ1 ++ [Ev.warn WarnK.cloudAutoFailed]) } rfl
      rw [hag] at hx
      simpa using hx
    rw [hres2] at hag
    refine ⟨δ1 ++ [Ev.warn WarnK.cloudAutoFailed] ++ δ2, r2, ?_, ?_, ?_⟩
    · unfold printBody
      rw [h0]
      simp only [autoChain, bindIsBindM, bindM, pureIsPureM, pureM, setRendered,
        tryCatchM, emitM, h1, h3, if_true, hbe, hag, List.append_assoc]
      simp [hag, bindM, tryCatchM, pureM, emitM, throwM, List.append_assoc]
    · simp [List.countP_append, hl1, hl2]
    · simp [List.countP_append, hw1, hw2]
  have hmain : ∀ ms : St, ms.trace = s.trace →
      (printBody env opts ms).1 = Except.ok ()
      ∧ List.countP isLegacyCall ((printBody env opts ms).2).trace
          = List.countP isLegacyCall s.trace
      ∧ List.countP isCloudWarn ((printBody env opts ms).2).trace
          = List.countP isCloudWarn s.trace + 1 := by
    intro ms hms
    obtain ⟨δ, r, heq, hl, hw⟩ := hbody ms
    rw [heq]
    simp [hms, List.countP_append, hl, hw]
  refine ⟨?_, ?_, ?_⟩
  · unfold print
    rw [withDebugScope_fst]
    exact (hmain _ (by rcases hd : opts.debug <;> simp [hd])).1
  · unfold print
    rw [withDebugScope_trace]
    exact (hmain _ (by rcases hd : opts.debug <;> simp [hd])).2.1
  · unfold print
    rw [withDebugScope_trace]
    exact (hmain _ (by rcases hd : opts.debug <;> simp [hd])).2.2

/-- Environment of the C1 witness: the cloud print endpoint fails, the
local agent succeeds. -/
def envC1 : Env :=
  { cloudPrintOk := false, renderOk := true, renderHtml := "<p>R</p>",
    fetchUrlOk := true, fetchUrlText := fun _ => "<p>F</p>", localOk := true,
    hasWindow := true, hasDocument := true, windowPrintFn := true,
    windowOpenOk := true, iframeContentWindowOk := true,
    originOf := fun _ => some "https://a.example", locationOrigin := "https://a.example" }

/-- Request of the C1 witness: cloud configured with printer key and
template, agent configured with its own html. -/
def optsC1 : PrintOptions :=
  { beast := some
      { templateId := some "t1",
        printer := some { key := "k", profileKey := none } },
    printdesk := some { html := some "<p>a</p>" } }

/-- C1 witness: concrete auto dispatch where the cloud attempt fails and
the agent attempt succeeds. -/
theorem c1_witness :
    (print envC1 optsC1 st0).1 = Except.ok ()
    ∧ List.countP isLegacyCall ((print envC1 optsC1 st0).2).trace
        = List.countP isLegacyCall st0.trace
    ∧ List.countP isCloudWarn ((print envC1 optsC1 st0).2).trace
        = List.countP isCloudWarn st0.trace + 1 :=
  c1_auto_cloud_fails_agent_succeeds envC1 optsC1 st0 rfl (by decide) rfl (by decide)
    (fun _ _ => rfl)

/-- An auto-strategy request with the three per-backend option values and
no shared fields, as in claim C3's scenario. -/
def autoOpts (bopts : BeastPrintOptions) (p : PrintdeskOptions)
    (l : LegacyPrintOptions) : PrintOptions :=
  { strategy := some PrintStrategy.auto, legacy := some l,
    beast := some bopts, printdesk := some p }

/-- C3: with cloud options carrying a templateId (and no usable cloud
printer), agent options having no html but a url, and browser options with
no content of their own, an auto dispatch in which the render succeeds,
the agent attempt then fails at the local endpoint, and the browser stage
completes, issues exactly one template-render network call even though
both the agent stage and the browser stage needed the rendered HTML: the
trace's render-call count grows by exactly one and the dispatch resolves. -/
theorem c3_template_rendered_once (env : Env) (bopts : BeastPrintOptions)
    (p : PrintdeskOptions) (l : LegacyPrintOptions) (s : St)
    (ht : truthyStr bopts.templateId = true)
    (hnb : hasBeastConfig (some bopts) = false)
    (hph : truthyStr p.html = false) (hpu : truthyStr p.url = true)
    (hlh : truthyStr l.html = false) (hlu : truthyStr l.url = false)
    (hlp : truthyBool l.popup = false)
    (hro : env.renderOk = true) (hrh : env.renderHtml ≠ "")
    (hlo : env.localOk = false) (hdoc : env.hasDocument = true)
    (hifr : env.iframeContentWindowOk = true) :
    (print env (autoOpts bopts p l) s).1 = Except.ok ()
    ∧ List.countP isNetRender ((print env (autoOpts bopts p l) s).2).trace
        = List.countP isNetRender s.trace + 1 := by
  have hnl : normLegacy (autoOpts bopts p l) = some l := by
    simp [normLegacy, autoOpts, truthyStr]
  have hnbopts : normBeast (autoOpts bopts p l) = some bopts := by
    simp [normBeast, autoOpts, truthyStr]
  have hnp : normPrintdesk (autoOpts bopts p l) = some p := by
    simp [normPrintdesk, autoOpts, truthyStr]
  have htr : truthyStr (some env.renderHtml) = true := by simp [truthyStr, hrh]
  have hstrat : (autoOpts bopts p l).strategy = some PrintStrategy.auto := rfl
  have hdbg : (autoOpts bopts p l).debug = none := rfl
  have hfb : (autoOpts bopts p l).fallbackToLegacyOnError = none := rfl
  constructor
  · unfold print
    rw [withDebugScope_fst]
    unfold printBody
    simp [hstrat, hdbg, hfb, hnl, hnbopts, hnp, autoChain, hnb, beastHasTemplate,
      hasPrintdeskConfig, hph, hpu, hlh, hlu, hlp, ht, hro, hrh, hlo, hdoc, hifr,
      agentAttempt, injectPrintdeskHtml, injectLegacyHtml, ensureRendered,
      renderTemplateToHtml, printdeskPrint, legacyPrint, maybeFallbackToLegacy,
      htr, bindM, pureM, throwM, emitM, tryCatchM, getRendered, setRendered,
      List.append_assoc]
  · unfold print
    rw [withDebugScope_trace]
    unfold printBody
    simp [hstrat, hdbg, hfb, hnl, hnbopts, hnp, autoChain, hnb, beastHasTemplate,
      hasPrintdeskConfig, hph, hpu, hlh, hlu, hlp, ht, hro, hrh, hlo, hdoc, hifr,
      agentAttempt, injectPrintdeskHtml, injectLegacyHtml, ensureRendered,
      renderTemplateToHtml, printdeskPrint, legacyPrint, maybeFallbackToLegacy,
      htr, bindM, pureM, throwM, emitM, tryCatchM, getRendered, setRendered,
      List.append_assoc, List.countP_append, List.countP_cons]

/-- Environment of the C3 witness: render succeeds, the local agent fails,
the browser iframe works. -/
def envC3 : Env :=
  { cloudPrintOk := false, renderOk := true, renderHtml := "<p>R</p>",
    fetchUrlOk := true, fetchUrlText := fun _ => "", localOk := false,
    hasWindow := true, hasDocument := true, windowPrintFn := true,
    windowOpenOk := true, iframeContentWindowOk := true,
    originOf := fun _ => none, locationOrigin := "" }

/-- C3 witness: the concrete scenario of the claim — cloud options are just
a templateId, agent options a url, browser options empty. -/
theorem c3_witness :
    (print envC3 (autoOpts { templateId := some "t1" } { url := some "http://x" } {}) st0).1
      = Except.ok ()
    ∧ List.countP isNetRender
        ((print envC3 (autoOpts { templateId := some "t1" } { url := some "http://x" } {})
          st0).2).trace
      = List.countP isNetRender st0.trace + 1 :=
  c3_template_rendered_once envC3 { templateId := some "t1" } { url := some "http://x" } {}
    st0 (by decide) (by decide) (by decide) (by decide) (by decide) (by decide)
    (by decide) rfl (by decide) rfl rfl rfl

end BeastprintSdk
